import Mathlib

/-!
Formal model of the core of the NaturewatchCameraServer
(`naturewatch_camera_server` package): the camera controller's
frame-acquisition loop, its exposure read-back quantizer, the
configuration commands, the mock and Raspberry Pi drivers, and the
time-synchronisation API endpoint.  Python numbers are modelled as
`Int`/`Nat`, machine floats as exact rationals, and Python `int()`
truncation by `pyTrunc`.  Raised Python exceptions are modelled with
explicit error values.
-/

namespace Naturewatch

/-- Python `bisect.bisect_left` applied to an ascending list: the number of
leading elements strictly below `v`.  For a sorted list this equals the
leftmost insertion point computed by the library's binary search. -/
def bisect_left (l : List Int) (v : Int) : Nat :=
  match l with
  | [] => 0
  | x :: xs => if x < v then bisect_left xs v + 1 else 0

/-- The fixed ascending shutter-speed table (microseconds) from
`CameraController.get_exposure_settings`. -/
def ExpList : List Int :=
  [250, 313, 400, 500, 625, 800, 1000, 1250, 1563, 2000, 2500, 3125,
   4000, 5000, 6250, 8000, 10000, 12500, 16666, 20000, 25000, 33333]

/-- `CameraController.find_closest_exposure`: nearest-table-value search via
`bisect_left`; the source returns `after` only when it is strictly closer,
so equally close values resolve to the smaller one. -/
def find_closest_exposure (l : List Int) (v : Int) : Int :=
  if bisect_left l v = 0 then l.headD 0
  else if bisect_left l v = l.length then l.getLastD 0
  else if l.getD (bisect_left l v) 0 - v < v - l.getD (bisect_left l v - 1) 0 then
    l.getD (bisect_left l v) 0
  else
    l.getD (bisect_left l v - 1) 0

theorem bisect_left_le (l : List Int) (v : Int) : bisect_left l v ≤ l.length := by
  induction l with
  | nil => simp [bisect_left]
  | cons x xs ih =>
    simp only [bisect_left, List.length_cons]
    split
    · omega
    · omega

theorem bisect_left_lt (l : List Int) (v : Int) (i : Nat)
    (h : i < bisect_left l v) : l.getD i 0 < v := by
  induction l generalizing i with
  | nil => simp [bisect_left] at h
  | cons x xs ih =>
    simp only [bisect_left] at h
    by_cases hx : x < v
    · rw [if_pos hx] at h
      cases i with
      | zero => simpa [List.getD_cons_zero] using hx
      | succ j =>
        simp only [List.getD_cons_succ]
        exact ih j (by omega)
    · rw [if_neg hx] at h
      omega

theorem bisect_left_ge (l : List Int) (v : Int)
    (h : bisect_left l v < l.length) : v ≤ l.getD (bisect_left l v) 0 := by
  induction l with
  | nil => simp at h
  | cons x xs ih =>
    simp only [bisect_left, List.length_cons] at h ⊢
    by_cases hx : x < v
    · rw [if_pos hx] at h ⊢
      simp only [List.getD_cons_succ]
      exact ih (by omega)
    · rw [if_neg hx] at h ⊢
      simp only [List.getD_cons_zero]
      omega

theorem getD_mem (l : List Int) (i : Nat) (h : i < l.length) : l.getD i 0 ∈ l := by
  induction l generalizing i with
  | nil => simp at h
  | cons x xs ih =>
    cases i with
    | zero => simp [List.getD_cons_zero]
    | succ j =>
      simp only [List.getD_cons_succ]
      exact List.mem_cons_of_mem _ (ih j (by simpa using Nat.lt_of_succ_lt_succ h))

theorem mem_getD (l : List Int) (t : Int) (h : t ∈ l) :
    ∃ i, i < l.length ∧ l.getD i 0 = t := by
  induction l with
  | nil => simp at h
  | cons x xs ih =>
    rcases List.mem_cons.mp h with rfl | hmem
    · exact ⟨0, by simp, by simp [List.getD_cons_zero]⟩
    · rcases ih hmem with ⟨i, hi, hgd⟩
      exact ⟨i + 1, by simpa using Nat.succ_lt_succ hi, by simpa [List.getD_cons_succ] using hgd⟩

theorem pairwise_getD_lt (l : List Int) (hs : l.Pairwise (· < ·)) (i j : Nat)
    (hij : i < j) (hj : j < l.length) : l.getD i 0 < l.getD j 0 := by
  induction l generalizing i j with
  | nil => simp at hj
  | cons x xs ih =>
    rcases List.pairwise_cons.mp hs with ⟨hx, hxs⟩
    cases i with
    | zero =>
      cases j with
      | zero => omega
      | succ j' =>
        simp only [List.getD_cons_zero, List.getD_cons_succ]
        exact hx _ (getD_mem xs j' (by simpa using Nat.lt_of_succ_lt_succ hj))
    | succ i' =>
      cases j with
      | zero => omega
      | succ j' =>
        simp only [List.getD_cons_succ]
        exact ih hxs i' j' (by omega) (by simpa using Nat.lt_of_succ_lt_succ hj)

theorem pairwise_getD_le (l : List Int) (hs : l.Pairwise (· < ·)) (i j : Nat)
    (hij : i ≤ j) (hj : j < l.length) : l.getD i 0 ≤ l.getD j 0 := by
  rcases Nat.eq_or_lt_of_le hij with rfl | hlt
  · exact le_refl _
  · exact le_of_lt (pairwise_getD_lt l hs i j hlt hj)

theorem getLastD_eq_getD (l : List Int) (h : l ≠ []) :
    l.getLastD 0 = l.getD (l.length - 1) 0 := by
  induction l with
  | nil => simp at h
  | cons x xs ih =>
    cases xs with
    | nil => simp [List.getLastD, List.getD_cons_zero]
    | cons y ys =>
      have := ih (by simp)
      simp only [List.getLastD_cons] at this ⊢
      simpa [List.getD_cons_succ] using this

/-- The nearest-value property of `find_closest_exposure` on any nonempty
strictly ascending table: the result is a table entry, it is at least as
close to the query as every table entry, and among equally close entries it
is the smallest. -/
theorem find_closest_spec (l : List Int) (hs : l.Pairwise (· < ·))
    (hne : l ≠ []) (v : Int) :
    find_closest_exposure l v ∈ l ∧
    ∀ t ∈ l, |find_closest_exposure l v - v| ≤ |t - v| ∧
      (|t - v| = |find_closest_exposure l v - v| → find_closest_exposure l v ≤ t) := by
  have hlen : 0 < l.length := List.length_pos.mpr hne
  by_cases h0 : bisect_left l v = 0
  · -- all table entries are ≥ v; the head is returned
    have hres : find_closest_exposure l v = l.getD 0 0 := by
      rw [find_closest_exposure, if_pos h0]
      cases l with
      | nil => simp at hne
      | cons x xs => simp [List.getD_cons_zero]
    have hv0 : v ≤ l.getD 0 0 := by
      have := bisect_left_ge l v (by omega)
      rwa [h0] at this
    constructor
    · rw [hres]; exact getD_mem l 0 hlen
    · intro t ht
      rcases mem_getD l t ht with ⟨i, hi, rfl⟩
      have hle : l.getD 0 0 ≤ l.getD i 0 := pairwise_getD_le l hs 0 i (Nat.zero_le _) hi
      have e1 : |l.getD 0 0 - v| = l.getD 0 0 - v := abs_of_nonneg (by omega)
      have e2 : |l.getD i 0 - v| = l.getD i 0 - v := abs_of_nonneg (by omega)
      rw [hres]
      omega
  · by_cases hL : bisect_left l v = l.length
    · -- all table entries are < v; the last element is returned
      have hres : find_closest_exposure l v = l.getD (l.length - 1) 0 := by
        rw [find_closest_exposure, if_neg h0, if_pos hL]
        exact getLastD_eq_getD l hne
      have hlast : l.getD (l.length - 1) 0 < v := by
        apply bisect_left_lt l v
        omega
      constructor
      · rw [hres]; exact getD_mem l _ (by omega)
      · intro t ht
        rcases mem_getD l t ht with ⟨i, hi, rfl⟩
        have hle : l.getD i 0 ≤ l.getD (l.length - 1) 0 :=
          pairwise_getD_le l hs i (l.length - 1) (by omega) (by omega)
        have hti : l.getD i 0 < v := bisect_left_lt l v i (by omega)
        have e1 : |l.getD (l.length - 1) 0 - v| = -(l.getD (l.length - 1) 0 - v) :=
          abs_of_nonpos (by omega)
        have e2 : |l.getD i 0 - v| = -(l.getD i 0 - v) := abs_of_nonpos (by omega)
        rw [hres]
        omega
    · -- the query falls strictly inside the table
      have hpos1 : 1 ≤ bisect_left l v := by omega
      have hposL : bisect_left l v < l.length :=
        lt_of_le_of_ne (bisect_left_le l v) hL
      have hb : l.getD (bisect_left l v - 1) 0 < v :=
        bisect_left_lt l v _ (by omega)
      have ha : v ≤ l.getD (bisect_left l v) 0 := bisect_left_ge l v hposL
      have hba : l.getD (bisect_left l v - 1) 0 < l.getD (bisect_left l v) 0 :=
        pairwise_getD_lt l hs _ _ (by omega) hposL
      have split_t : ∀ t ∈ l, t ≤ l.getD (bisect_left l v - 1) 0 ∨
          l.getD (bisect_left l v) 0 ≤ t := by
        intro t ht
        rcases mem_getD l t ht with ⟨i, hi, rfl⟩
        by_cases hcase : i ≤ bisect_left l v - 1
        · exact Or.inl (pairwise_getD_le l hs i _ hcase (by omega))
        · exact Or.inr (pairwise_getD_le l hs _ i (by omega) hi)
      rw [find_closest_exposure, if_neg h0, if_neg hL]
      split
      · rename_i hcl
        constructor
        · exact getD_mem l _ hposL
        · intro t ht
          have e1 : |l.getD (bisect_left l v) 0 - v| = l.getD (bisect_left l v) 0 - v :=
            abs_of_nonneg (by omega)
          rcases split_t t ht with htb | hta
          · have htv : t < v := by omega
            have e2 : |t - v| = -(t - v) := abs_of_nonpos (by omega)
            omega
          · have e2 : |t - v| = t - v := abs_of_nonneg (by omega)
            omega
      · rename_i hcl
        constructor
        · exact getD_mem l _ (by omega)
        · intro t ht
          have e1 : |l.getD (bisect_left l v - 1) 0 - v| =
              -(l.getD (bisect_left l v - 1) 0 - v) := abs_of_nonpos (by omega)
          rcases split_t t ht with htb | hta
          · have e2 : |t - v| = -(t - v) := abs_of_nonpos (by omega)
            omega
          · have e2 : |t - v| = t - v := abs_of_nonneg (by omega)
            omega

theorem ExpList_sorted : ExpList.Pairwise (· < ·) := by decide

/-- C2: for every raw shutter-speed input the exposure read-back quantizer
returns the nearest value of the fixed ascending 22-entry table, an input
exactly equidistant from two adjacent table values resolves to the smaller
of the two, and in particular input 712 yields 625. -/
theorem C2_quantizer_nearest_tie_smaller (v : Int) :
    (find_closest_exposure ExpList v ∈ ExpList ∧
      ∀ t ∈ ExpList, |find_closest_exposure ExpList v - v| ≤ |t - v| ∧
        (|t - v| = |find_closest_exposure ExpList v - v| →
          find_closest_exposure ExpList v ≤ t)) ∧
    find_closest_exposure ExpList 712 = 625 :=
  ⟨find_closest_spec ExpList ExpList_sorted (by decide) v, by decide⟩

/-- Witness for C2 at concrete inputs: 712 maps to 625, and the genuine tie
450 (the exact midpoint of the adjacent values 400 and 500) resolves to the
smaller value 400. -/
theorem C2_quantizer_nearest_tie_smaller_witness :
    find_closest_exposure ExpList 712 = 625 ∧
    find_closest_exposure ExpList 450 = 400 ∧
    |find_closest_exposure ExpList 450 - 450| ≤ |(500 : Int) - 450| ∧
    (|(500 : Int) - 450| = |find_closest_exposure ExpList 450 - 450| →
      find_closest_exposure ExpList 450 ≤ 500) :=
  ⟨(C2_quantizer_nearest_tie_smaller 712).2, by decide,
   ((C2_quantizer_nearest_tie_smaller 450).1.2 500 (by decide)).1,
   ((C2_quantizer_nearest_tie_smaller 450).1.2 500 (by decide)).2⟩

/-- C8: the quantizer is total and closed over its table: every integer
input yields a table entry, inputs at most 250 map to 250, and inputs at
least 33333 map to 33333. -/
theorem C8_quantizer_closed_clamped (v : Int) :
    find_closest_exposure ExpList v ∈ ExpList ∧
    (v ≤ 250 → find_closest_exposure ExpList v = 250) ∧
    (33333 ≤ v → find_closest_exposure ExpList v = 33333) := by
  obtain ⟨hmem, hnear⟩ := find_closest_spec ExpList ExpList_sorted (by decide) v
  have hlo : (250 : Int) ≤ find_closest_exposure ExpList v := by
    have hall : ∀ x ∈ ExpList, (250 : Int) ≤ x := by decide
    exact hall _ hmem
  have hhi : find_closest_exposure ExpList v ≤ 33333 := by
    have hall : ∀ x ∈ ExpList, x ≤ (33333 : Int) := by decide
    exact hall _ hmem
  refine ⟨hmem, ?_, ?_⟩
  · intro hv
    have h1 := (hnear 250 (by decide)).1
    have e1 : |find_closest_exposure ExpList v - v| =
        find_closest_exposure ExpList v - v := abs_of_nonneg (by omega)
    have e2 : |(250 : Int) - v| = 250 - v := abs_of_nonneg (by omega)
    omega
  · intro hv
    have h1 := (hnear 33333 (by decide)).1
    have e1 : |find_closest_exposure ExpList v - v| =
        -(find_closest_exposure ExpList v - v) := abs_of_nonpos (by omega)
    have e2 : |(33333 : Int) - v| = -((33333 : Int) - v) := abs_of_nonpos (by omega)
    omega

/-- Witness for C8 at concrete inputs: 100 clamps to 250, 50000 clamps to
33333, and 3000 yields a table entry. -/
theorem C8_quantizer_closed_clamped_witness :
    find_closest_exposure ExpList 100 = 250 ∧
    find_closest_exposure ExpList 50000 = 33333 ∧
    find_closest_exposure ExpList 3000 ∈ ExpList :=
  ⟨(C8_quantizer_closed_clamped 100).2.1 (by decide),
   (C8_quantizer_closed_clamped 50000).2.2 (by decide),
   (C8_quantizer_closed_clamped 3000).1⟩

/-- The string constant "1640x1232". -/
def res_1640 : String := "1640x1232"

/-- The string constant "1920x1080". -/
def res_1920 : String := "1920x1080"

/-- The string constant "auto". -/
def mode_auto : String := "auto"

/-- The string constant "off". -/
def mode_off : String := "off"

/-- The camera-configuration fields (`self.config`) that the modelled code
reads or writes: CameraController's command handlers and the fields the
drivers consume. -/
structure Config where
  resolution : String
  img_width : Nat
  img_height : Nat
  shutter_speed : Int
  analogue_gain : Int
  exposure_mode : String
  frame_rate : Int
  video_duration_before_motion : ℚ
  rotate_camera : Int
  deriving DecidableEq

/-- Python exceptions the modelled code can raise. -/
inductive PyErr
  | assertionError
  | nameError
  | valueError
  | typeError
  | cvError
  deriving DecidableEq

/-- One iteration's input to the frame-acquisition loop: the capture either
returns a YUV frame, or raises KeyboardInterrupt, or raises some other
exception. -/
inductive CaptureEvent
  | frame (yuv : Nat)
  | keyboardInterrupt
  | exc
  deriving DecidableEq

/-- cv2.cvtColor(yuv, COLOR_YUV420p2RGB); pixel contents are abstract, so
the conversion is the identity on the abstract image value. -/
def cvtColor (yuv : Nat) : Nat := yuv

/-- State of the CameraController thread observable by the claims: the
published image slots, the configuration, and a record of the actions the
loop body performs (error logs, recovery reinitialisations with the config
passed, and sleeps in seconds). -/
structure LoopState where
  config : Config
  yuvimage : Option Nat
  image : Option Nat
  recording_active : Bool
  errorLogs : Nat
  reinits : List Config
  sleeps : List ℚ
  deriving DecidableEq

/-- CameraController.__init__: the published image slots start out as None
and recording is inactive. -/
def initController (cfg : Config) : LoopState :=
  { config := cfg, yuvimage := none, image := none, recording_active := false,
    errorLogs := 0, reinits := [], sleeps := [] }

/-- One pass of the body of CameraController.run for the given capture
event.  On success the YUV frame and its colour conversion are published
and the loop sleeps 0.03s (1s while recording); on KeyboardInterrupt the
loop breaks (second component true); on any other exception the error is
logged, the driver is reinitialised with the current config, and the loop
sleeps 0.02s and continues. -/
def loopBody (s : LoopState) : CaptureEvent → LoopState × Bool
  | .frame y =>
    ({ s with
        yuvimage := some y, image := some (cvtColor y),
        sleeps := s.sleeps ++ [if s.recording_active then 1 else 3 / 100] },
     false)
  | .keyboardInterrupt => (s, true)
  | .exc =>
    ({ s with
        errorLogs := s.errorLogs + 1,
        reinits := s.reinits ++ [s.config],
        sleeps := s.sleeps ++ [1 / 50] },
     false)

/-- How a finite observation of CameraController.run ends: the stop event
was seen set at the top of the loop, a KeyboardInterrupt broke out, or the
trace ran out with the loop still running. -/
inductive LoopExit
  | stopSignal (s : LoopState)
  | interrupted (s : LoopState)
  | running (s : LoopState)
  deriving DecidableEq

/-- CameraController.run over a finite trace; each entry records whether
the stop event was set when `not self.is_stopped()` was evaluated, and the
capture event of that iteration. -/
def runLoop (s : LoopState) : List (Bool × CaptureEvent) → LoopExit
  | [] => .running s
  | (stopSet, e) :: rest =>
    if stopSet then .stopSignal s
    else
      match loopBody s e with
      | (s', true) => .interrupted s'
      | (s', false) => runLoop s' rest

/-- A sample in-memory configuration (matching the repository defaults for
the fields modelled). -/
def cfg0 : Config :=
  { resolution := res_1640, img_width := 1640, img_height := 1232,
    shutter_speed := 0, analogue_gain := 0, exposure_mode := mode_auto,
    frame_rate := 10, video_duration_before_motion := 5, rotate_camera := 0 }

/-- Counterexample to C1 as stated: with the stop event never set, a
KeyboardInterrupt raised inside the loop still makes the loop exit, so the
loop does not exit only on the explicit stop signal. -/
theorem C1_loop_exit_counterexample :
    runLoop (initController cfg0) [(false, CaptureEvent.keyboardInterrupt)] =
      .interrupted (initController cfg0) ∧
    ∀ p ∈ [((false : Bool), CaptureEvent.keyboardInterrupt)], p.1 = false := by
  constructor
  · rfl
  · intro p hp
    rw [List.mem_singleton.mp hp]

/-- C1 (amended): on every capture error other than KeyboardInterrupt the
loop logs the error, reinitialises the driver with the last-known
configuration, backs off 20ms (1/50 s) and continues with the next
iteration; and the loop exits only when the stop event has been set or on a
KeyboardInterrupt — over any trace in which the stop event is never set and
no KeyboardInterrupt occurs, the loop is still running. -/
theorem C1_loop_recovery_and_exit (s : LoopState)
    (trace : List (Bool × CaptureEvent))
    (hstop : ∀ p ∈ trace, p.1 = false)
    (hkb : ∀ p ∈ trace, p.2 ≠ CaptureEvent.keyboardInterrupt) :
    (∃ s', runLoop s trace = .running s') ∧
    ∀ rest, runLoop s ((false, CaptureEvent.exc) :: rest) =
      runLoop { s with
                errorLogs := s.errorLogs + 1,
                reinits := s.reinits ++ [s.config],
                sleeps := s.sleeps ++ [1 / 50] } rest := by
  constructor
  · induction trace generalizing s with
    | nil => exact ⟨s, rfl⟩
    | cons p rest ih =>
      obtain ⟨stopSet, e⟩ := p
      have h1 : stopSet = false := hstop _ (List.mem_cons_self _ _)
      have h2 : e ≠ CaptureEvent.keyboardInterrupt := hkb _ (List.mem_cons_self _ _)
      subst h1
      have hstop' : ∀ q ∈ rest, q.1 = false :=
        fun q hq => hstop q (List.mem_cons_of_mem _ hq)
      have hkb' : ∀ q ∈ rest, q.2 ≠ CaptureEvent.keyboardInterrupt :=
        fun q hq => hkb q (List.mem_cons_of_mem _ hq)
      cases e with
      | frame y => simpa [runLoop, loopBody] using ih _ hstop' hkb'
      | keyboardInterrupt => exact absurd rfl h2
      | exc => simpa [runLoop, loopBody] using ih _ hstop' hkb'
  · intro rest
    simp [runLoop, loopBody]

/-- Witness for the amended C1: over a concrete trace with one capture
error and one successful frame (stop never set, no interrupt) the loop is
still running, and the error iteration steps to the recovered state with
one more logged error, a reinitialisation with the last-known config, and
a 20ms back-off recorded. -/
theorem C1_loop_recovery_and_exit_witness :
    (∃ s', runLoop (initController cfg0)
      [(false, CaptureEvent.exc), (false, CaptureEvent.frame 7)] = .running s') ∧
    runLoop (initController cfg0)
        ((false, CaptureEvent.exc) :: [(false, CaptureEvent.frame 7)]) =
      runLoop { (initController cfg0) with
                errorLogs := 1, reinits := [cfg0],
                sleeps := [1 / 50] } [(false, CaptureEvent.frame 7)] :=
  ⟨(C1_loop_recovery_and_exit (initController cfg0)
      [(false, CaptureEvent.exc), (false, CaptureEvent.frame 7)]
      (by decide) (by decide)).1,
   (C1_loop_recovery_and_exit (initController cfg0) [] (by simp) (by simp)).2
      [(false, CaptureEvent.frame 7)]⟩

/-- CameraController.get_md_yuvimage: a copy of the latest YUV frame when
one exists, None otherwise (the copy is the identity on the abstract
value). -/
def get_md_yuvimage (s : LoopState) : Option Nat := s.yuvimage

/-- CameraController.get_md_image: a copy of the latest RGB frame when one
exists, None otherwise. -/
def get_md_image (s : LoopState) : Option Nat := s.image

/-- cv2.imencode applied to an optional image: encoding is abstracted as
the image value itself; applying the encoder to None raises cv2.error. -/
def imencode_jpg : Option Nat → Except PyErr Nat
  | none => .error .cvError
  | some img => .ok img

/-- CameraController.get_image_binary: JPEG-encodes whatever get_md_image
returns, with no None check. -/
def get_image_binary (s : LoopState) : Except PyErr Nat :=
  imencode_jpg (get_md_image s)

/-- C9: while the latest-image slots are still None — as they are right
after construction, before the loop has published any frame — get_md_image
and get_md_yuvimage return None, and get_image_binary fails (the JPEG
encoder is applied to None) instead of returning encoded bytes. -/
theorem C9_no_frame_preview_fails (cfg : Config) (s : LoopState)
    (h : s.image = none) (hy : s.yuvimage = none) :
    (initController cfg).image = none ∧ (initController cfg).yuvimage = none ∧
    get_md_image s = none ∧ get_md_yuvimage s = none ∧
    get_image_binary s = .error .cvError := by
  refine ⟨rfl, rfl, h, hy, ?_⟩
  simp [get_image_binary, imencode_jpg, get_md_image, h]

/-- Witness for C9 at the freshly constructed controller. -/
theorem C9_no_frame_preview_fails_witness :
    get_md_image (initController cfg0) = none ∧
    get_image_binary (initController cfg0) = .error .cvError :=
  ⟨(C9_no_frame_preview_fails cfg0 (initController cfg0) rfl rfl).2.2.1,
   (C9_no_frame_preview_fails cfg0 (initController cfg0) rfl rfl).2.2.2.2⟩

/-- Outcome of a configuration command: the in-memory config after the
call (including mutations made before any exception), whether
config.flush() persisted it, whether the driver was reinitialised, and the
exception raised, if any. -/
structure CmdResult where
  config : Config
  flushed : Bool
  driverInit : Bool
  error : Option PyErr
  deriving DecidableEq

/-- The string constant "x". -/
def sepX : String := "x"

/-- resolution.split('x', 1) followed by int() on both parts; None when
int() would raise ValueError.  The caller only reaches this behind an
assert restricting to strings with a single x, for which split with
maxsplit 1 agrees with a full split. -/
def parse_dims (s : String) : Option (Nat × Nat) :=
  match (s.splitOn sepX).map String.toNat? with
  | [some w, some h] => some (w, h)
  | _ => none

/-- CameraController.set_resolution: a no-op when the resolution is
unchanged; otherwise asserts membership in the supported set before
mutating the config, reinitialising the driver and flushing. -/
def set_resolution (cfg : Config) (res : String) : CmdResult :=
  if res = cfg.resolution then
    { config := cfg, flushed := false, driverInit := false, error := none }
  else if res = res_1640 ∨ res = res_1920 then
    match parse_dims res with
    | some wh =>
      { config := { cfg with
                      resolution := res, img_height := wh.2, img_width := wh.1 },
        flushed := true, driverInit := true, error := none }
    | none =>
      { config := { cfg with resolution := res }, flushed := false,
        driverInit := false, error := some .valueError }
  else
    { config := cfg, flushed := false, driverInit := false,
      error := some .assertionError }

/-- CameraController.set_exposure: mutates shutter_speed, analogue_gain and
exposure_mode in the in-memory config, then evaluates ExposureMode.MANUAL;
CameraController.py never imports ExposureMode, so a NameError is raised
there — before the driver call and before config.flush(). -/
def set_exposure (cfg : Config) (t g : Int) : CmdResult :=
  { config := { cfg with
                  shutter_speed := t, analogue_gain := g,
                  exposure_mode := mode_off },
    flushed := false, driverInit := false, error := some .nameError }

/-- Counterexample to C3 as stated: a manual-exposure command raises an
error, but the stored in-memory configuration is mutated on that error
path (shutter_speed changes from 0 to 5000, among others). -/
theorem C3_config_mutated_counterexample :
    (set_exposure cfg0 5000 2).error = some PyErr.nameError ∧
    (set_exposure cfg0 5000 2).config ≠ cfg0 := by
  constructor
  · rfl
  · decide

/-- C3 (amended): set_resolution with a resolution outside the supported
set (and different from the current one) raises an AssertionError before
any mutation — config unchanged, nothing flushed, no driver
reinitialisation; set_exposure on a manual-exposure request raises a
NameError (ExposureMode is not imported), but only after mutating
shutter_speed, analogue_gain and exposure_mode in the in-memory config;
the driver is not called and the config is not flushed, so the persisted
configuration is unchanged. -/
theorem C3_invalid_command_effects (cfg : Config) (res : String) (t g : Int)
    (hne : ¬ res = cfg.resolution) (hinv : ¬ (res = res_1640 ∨ res = res_1920)) :
    set_resolution cfg res =
      { config := cfg, flushed := false, driverInit := false,
        error := some PyErr.assertionError } ∧
    set_exposure cfg t g =
      { config := { cfg with
                      shutter_speed := t, analogue_gain := g,
                      exposure_mode := mode_off },
        flushed := false, driverInit := false, error := some PyErr.nameError } := by
  constructor
  · simp only [set_resolution, if_neg hne, if_neg hinv]
  · rfl

/-- The string constant "640x480", a resolution outside the supported set. -/
def res_bad : String := "640x480"

/-- Witness for the amended C3 at a concrete config and arguments. -/
theorem C3_invalid_command_effects_witness :
    set_resolution cfg0 res_bad =
      { config := cfg0, flushed := false, driverInit := false,
        error := some PyErr.assertionError } ∧
    (set_exposure cfg0 5000 2).flushed = false :=
  ⟨(C3_invalid_command_effects cfg0 res_bad 5000 2 (by decide) (by decide)).1,
   congrArg CmdResult.flushed
     (C3_invalid_command_effects cfg0 res_bad 5000 2 (by decide) (by decide)).2⟩

/-- Python int() applied to a float value (floats are modelled exactly as
rationals): truncation toward zero. -/
def pyTrunc (q : ℚ) : Int := if 0 ≤ q then ⌊q⌋ else ⌈q⌉

/-- The RPiDriver camera state that initialise_picamera intends to set up:
the frame timing and the pre-roll CircularOutput allocation (the encoder's
circular buffer would be created with buffersize = video_buffer_size).  No
value of this type is ever produced, because initialisation raises first
(see initialise_picamera). -/
structure RPiCamera where
  frame_duration : Int
  video_buffer_size : Int
  encoder_buffersize : Int
  rotated : Bool
  deriving DecidableEq

/-- The buffer-sizing expression of the unreachable lines
RaspberryPiDriver.py:100-102 (the sizing the claim and the spec describe):
int(frame_rate * (video_duration_before_motion + 1.1)). -/
def video_buffer_size_calc (cfg : Config) : Int :=
  pyTrunc ((cfg.frame_rate : ℚ) * (cfg.video_duration_before_motion + 11 / 10))

/-- RPiDriver.initialise_picamera.  After closing/reopening the camera and
computing the locals frame_duration and rotated (lines 44-58), line 59
calls create_video_configuration(**{ImageResolution.HIRES: ..., ...}):
unpacking a dict keyed by enum members raises TypeError (keywords must be
strings), for every configuration.  Everything after it is unreachable —
including set_exposure at line 91, whose time.sleep(0.5) (line 144) would
raise NameError since the module never imports time, and the buffer sizing
and CircularOutput allocation at lines 100-104 (video_buffer_size_calc).
So initialisation never produces an RPiCamera state. -/
def initialise_picamera (_cfg : Config) : Except PyErr RPiCamera :=
  .error .typeError

/-- C4 (evaluating the buggy code): RPiDriver.initialise_picamera raises
TypeError before the buffer allocation for every configuration, so no
pre-roll buffer is ever allocated at camera initialisation; the sizing
expression of the unreachable allocation code does equal
⌊frame_rate * (video_duration_before_motion + 1.1)⌋ at the sample
configuration (⌊10 * 6.1⌋ = 61 frames), which is what the claim says the
allocated capacity should be. -/
theorem C4_preroll_buffer_never_allocated :
    (∀ cfg, initialise_picamera cfg = .error .typeError) ∧
    video_buffer_size_calc cfg0 =
      ⌊(cfg0.frame_rate : ℚ) * (cfg0.video_duration_before_motion + 11 / 10)⌋ ∧
    video_buffer_size_calc cfg0 = 61 := by
  refine ⟨fun cfg => rfl, ?_, ?_⟩
  · norm_num [video_buffer_size_calc, pyTrunc, cfg0]
  · norm_num [video_buffer_size_calc, pyTrunc, cfg0]

/-- The two resolution tiers of the driver interface. -/
inductive Res
  | lores
  | hires
  deriving DecidableEq

/-- The MockDriver state the claims observe: the CAP_PROP_POS_FRAMES cursor
of each of the two independent VideoCapture feeds over the same file, the
wall-clock reference, and the frame count and frame rate of the backing
video. -/
structure MockState where
  lores_pos : Int
  hires_pos : Int
  wall_time : ℚ
  num_frames : Int
  frame_rate : ℚ
  deriving DecidableEq

/-- MockDriver.advance_lores_video: moves the low-resolution cursor forward
by int((now - wall_time + shift) * frame_rate) positions, wrapped modulo
the frame count, and resets the wall-clock reference; `now` is the value
time.time() returns. -/
def advance_lores_video (s : MockState) (now : ℚ) (shift : ℚ) : MockState :=
  { s with
    wall_time := now,
    lores_pos :=
      (s.lores_pos + pyTrunc ((now - s.wall_time + shift) * s.frame_rate)) % s.num_frames }

/-- A VideoCapture.read() on the requested feed: returns the frame at that
feed's cursor and advances the cursor by one.  Frame data is abstracted to
the frame index. -/
def videoRead (s : MockState) : Res → MockState × Int
  | .lores => ({ s with lores_pos := s.lores_pos + 1 }, s.lores_pos)
  | .hires => ({ s with hires_pos := s.hires_pos + 1 }, s.hires_pos)

/-- MockDriver.get_yuv_image: advances the low-resolution feed by the
elapsed wall-clock time (shift 0), then reads one frame from the requested
feed.  The colour conversion and optional flip of the returned frame are
dropped, since frame data is abstracted to the frame index. -/
def get_yuv_image (s : MockState) (r : Res) (now : ℚ) : MockState × Int :=
  videoRead (advance_lores_video s now 0) r

/-- C5: on every frame request the simulated device advances the
low-resolution read position by ⌊elapsed * frame_rate⌋ wrapped modulo the
video's frame count, and the high-resolution cursor is independent: a
low-res request leaves it unchanged, a hi-res request serves the frame at
the hi-res cursor and advances it by exactly one, and the low-res frame
served does not depend on the hi-res cursor. -/
theorem C5_mock_advance_and_cursors (s : MockState) (now : ℚ)
    (helapsed : s.wall_time ≤ now) (hrate : 0 ≤ s.frame_rate) :
    (advance_lores_video s now 0).lores_pos =
      (s.lores_pos + ⌊(now - s.wall_time) * s.frame_rate⌋) % s.num_frames ∧
    (get_yuv_image s .lores now).1.hires_pos = s.hires_pos ∧
    (get_yuv_image s .hires now).2 = s.hires_pos ∧
    (get_yuv_image s .hires now).1.hires_pos = s.hires_pos + 1 ∧
    ∀ p : Int, (get_yuv_image { s with hires_pos := p } .lores now).2 =
      (get_yuv_image s .lores now).2 := by
  have hq : (0 : ℚ) ≤ (now - s.wall_time + 0) * s.frame_rate :=
    mul_nonneg (by linarith) hrate
  refine ⟨?_, rfl, rfl, rfl, fun p => rfl⟩
  simp only [advance_lores_video, pyTrunc]
  rw [if_pos hq, add_zero]

/-- Witness for C5 at a concrete state: after 0.3s at 10fps the
low-resolution cursor moves from 3 to (3 + 3) % 30 = 6, and a hi-res
request serves frame 7 and moves the hi-res cursor to 8. -/
theorem C5_mock_advance_and_cursors_witness :
    (advance_lores_video
        { lores_pos := 3, hires_pos := 7, wall_time := 100,
          num_frames := 30, frame_rate := 10 } (1003 / 10) 0).lores_pos = 6 ∧
    (get_yuv_image
        { lores_pos := 3, hires_pos := 7, wall_time := 100,
          num_frames := 30, frame_rate := 10 } .hires (1003 / 10)).2 = 7 ∧
    (get_yuv_image
        { lores_pos := 3, hires_pos := 7, wall_time := 100,
          num_frames := 30, frame_rate := 10 } .hires (1003 / 10)).1.hires_pos = 8 := by
  have h := C5_mock_advance_and_cursors
    { lores_pos := 3, hires_pos := 7, wall_time := 100,
      num_frames := 30, frame_rate := 10 } (1003 / 10) (by norm_num) (by norm_num)
  refine ⟨?_, h.2.2.1, h.2.2.2.1⟩
  rw [h.1]
  norm_num

/-- RaspberryPiDriver.autofocus.  After `assert self.camera is not None`,
the condition of `if can_autofocus:` reads the bare name can_autofocus; the
module defines no such global (the capability check is the property
self.can_autofocus), so evaluating the condition raises NameError, and the
retry loop below it — 5 attempts with time.sleep(1) between them, itself
relying on a `time` module the file never imports — is unreachable. -/
def rpiAutofocus (cameraPresent : Bool) : Except PyErr Unit :=
  if cameraPresent then .error .nameError else .error .assertionError

/-- C6 (evaluating the buggy code): the real-device autofocus never reaches
the capability check or the retry loop: with a camera present it raises
NameError at `if can_autofocus:`, without one the leading assert fails,
and in no case does it return without raising. -/
theorem C6_autofocus_always_raises :
    rpiAutofocus true = .error .nameError ∧
    rpiAutofocus false = .error .assertionError ∧
    ∀ b, ∃ e, rpiAutofocus b = .error e := by
  refine ⟨rfl, rfl, ?_⟩
  intro b
  cases b
  · exact ⟨.assertionError, rfl⟩
  · exact ⟨.nameError, rfl⟩

/-- The ChangeDetector fields touched by the time endpoint: the recorded
device time and the local time at which it was received. -/
structure DetectorState where
  device_time : Option ℚ
  device_time_start : Option ℚ
  deriving DecidableEq

/-- The body kind of a response from api.update_time. -/
inductive TimeBody
  | success
  | err
  | notModified
  deriving DecidableEq

/-- api.update_time: `t` is the parsed float(time_string) and `now` the
value time.time() returns at the handler.  Result: the detector state
after the request, the HTTP status, and the body kind. -/
def update_time (s : DetectorState) (t now : ℚ) : DetectorState × Nat × TimeBody :=
  match s.device_time with
  | none =>
    if 1580317004 < t then
      ({ device_time := some t, device_time_start := some now }, 200, .success)
    else
      (s, 400, .err)
  | some _ => (s, 304, .notModified)

/-- C7: clock synchronisation is accepted at most once: when no device time
is set and the supplied value is valid, the endpoint records the value and
the local receive time and responds 200; once a device time is set, every
request responds 304 and leaves the state unchanged. -/
theorem C7_time_sync_accepted_once (s : DetectorState) (t now : ℚ) :
    (s.device_time = none → 1580317004 < t →
      update_time s t now =
        ({ device_time := some t, device_time_start := some now }, 200, .success)) ∧
    (∀ d, s.device_time = some d → update_time s t now = (s, 304, .notModified)) := by
  constructor
  · intro h ht
    simp [update_time, h, ht]
  · intro d hd
    simp [update_time, hd]

/-- Witness for C7: a valid first request is recorded with status 200, and
a second request afterwards gets 304 and changes nothing. -/
theorem C7_time_sync_accepted_once_witness :
    update_time { device_time := none, device_time_start := none } 1700000000 1000 =
      ({ device_time := some 1700000000, device_time_start := some 1000 }, 200, .success) ∧
    update_time { device_time := some 1700000000, device_time_start := some 1000 }
        1800000000 2000 =
      ({ device_time := some 1700000000, device_time_start := some 1000 }, 304,
        .notModified) :=
  ⟨(C7_time_sync_accepted_once { device_time := none, device_time_start := none }
      1700000000 1000).1 rfl (by norm_num),
   (C7_time_sync_accepted_once
      { device_time := some 1700000000, device_time_start := some 1000 }
      1800000000 2000).2 1700000000 rfl⟩

/-- C10: a first-time request whose value is not greater than 1580317004 is
rejected with status 400 and an error body, the device time stays unset,
and a later request with a value above the threshold is still accepted and
recorded. -/
theorem C10_time_sync_threshold (s : DetectorState) (t t2 now now2 : ℚ)
    (h0 : s.device_time = none) (ht : t ≤ 1580317004) :
    update_time s t now = (s, 400, .err) ∧
    (update_time s t now).1.device_time = none ∧
    (1580317004 < t2 →
      update_time (update_time s t now).1 t2 now2 =
        ({ device_time := some t2, device_time_start := some now2 }, 200, .success)) := by
  have h1 : update_time s t now = (s, 400, .err) := by
    simp [update_time, h0, not_lt.mpr ht]
  refine ⟨h1, ?_, fun h2 => ?_⟩
  · rw [h1]
    exact h0
  · rw [h1]
    simp [update_time, h0, h2]

/-- Witness for C10: the threshold value itself is rejected with 400 and a
later valid request still succeeds. -/
theorem C10_time_sync_threshold_witness :
    update_time { device_time := none, device_time_start := none } 1580317004 500 =
      ({ device_time := none, device_time_start := none }, 400, .err) ∧
    update_time
        (update_time { device_time := none, device_time_start := none } 1580317004 500).1
        1700000000 1000 =
      ({ device_time := some 1700000000, device_time_start := some 1000 }, 200,
        .success) :=
  ⟨(C10_time_sync_threshold { device_time := none, device_time_start := none }
      1580317004 1700000000 500 1000 rfl (by norm_num)).1,
   (C10_time_sync_threshold { device_time := none, device_time_start := none }
      1580317004 1700000000 500 1000 rfl (by norm_num)).2.2 (by norm_num)⟩

end Naturewatch
